import Mathlib

/-!
Verification of the pylvi heater-client library against its design
specification.  The definitions below are a shallow embedding of
src/lvi/__init__.py: Python dictionaries parsed from JSON become `JVal`,
fallible operations (attribute errors, int() parse failures, raised
exceptions) become `Except`/`PyResult`, network and clock effects become
explicit parameters, and machine arithmetic is exact integer arithmetic
(all divisions in the source act on nonnegative operands, where Python's
float-divide-then-truncate agrees with integer floor division).
-/

namespace Pylvi

/-- Model of a parsed JSON value as the Python code sees it: `jnull` is
Python `None` (also the result of a missing dictionary key), `jstr` a
string, `jint` an int (used for integer form-field values and for the
integer mode codes the command dispatcher assigns), `jobj` a dict. -/
inductive JVal where
  | jnull : JVal
  | jstr : String → JVal
  | jint : Int → JVal
  | jobj : List (String × JVal) → JVal

mutual

def JVal.decEq : (a b : JVal) → Decidable (a = b)
  | .jnull, .jnull => .isTrue rfl
  | .jnull, .jstr _ => .isFalse (fun h => JVal.noConfusion h)
  | .jnull, .jint _ => .isFalse (fun h => JVal.noConfusion h)
  | .jnull, .jobj _ => .isFalse (fun h => JVal.noConfusion h)
  | .jstr _, .jnull => .isFalse (fun h => JVal.noConfusion h)
  | .jstr a, .jstr b =>
    if h : a = b then .isTrue (congrArg JVal.jstr h)
    else .isFalse (fun hh => h (JVal.jstr.inj hh))
  | .jstr _, .jint _ => .isFalse (fun h => JVal.noConfusion h)
  | .jstr _, .jobj _ => .isFalse (fun h => JVal.noConfusion h)
  | .jint _, .jnull => .isFalse (fun h => JVal.noConfusion h)
  | .jint _, .jstr _ => .isFalse (fun h => JVal.noConfusion h)
  | .jint a, .jint b =>
    if h : a = b then .isTrue (congrArg JVal.jint h)
    else .isFalse (fun hh => h (JVal.jint.inj hh))
  | .jint _, .jobj _ => .isFalse (fun h => JVal.noConfusion h)
  | .jobj _, .jnull => .isFalse (fun h => JVal.noConfusion h)
  | .jobj _, .jstr _ => .isFalse (fun h => JVal.noConfusion h)
  | .jobj _, .jint _ => .isFalse (fun h => JVal.noConfusion h)
  | .jobj a, .jobj b =>
    match JVal.decEqList a b with
    | .isTrue h => .isTrue (congrArg JVal.jobj h)
    | .isFalse h => .isFalse (fun hh => h (JVal.jobj.inj hh))

def JVal.decEqList : (a b : List (String × JVal)) → Decidable (a = b)
  | [], [] => .isTrue rfl
  | [], _ :: _ => .isFalse (fun h => List.noConfusion h)
  | _ :: _, [] => .isFalse (fun h => List.noConfusion h)
  | (k1, v1) :: r1, (k2, v2) :: r2 =>
    if hk : k1 = k2 then
      match JVal.decEq v1 v2 with
      | .isTrue hv =>
        match JVal.decEqList r1 r2 with
        | .isTrue hr => .isTrue (by rw [hk, hv, hr])
        | .isFalse hr => .isFalse (fun h => hr (by injection h))
      | .isFalse hv =>
        .isFalse (fun h => hv (by
          injection h with h1 h2
          exact congrArg Prod.snd h1))
    else
      .isFalse (fun h => hk (by
        injection h with h1 h2
        exact congrArg Prod.fst h1))

end

instance : DecidableEq JVal := JVal.decEq

/-- Python `x.get(k)` where `x` may be any value: a dict yields the entry
or `None` when the key is missing; calling `.get` on a non-dict (for
example on `None`, i.e. a missing intermediate object) raises. -/
def jget : JVal → String → Except Unit JVal
  | .jobj fs, k =>
    match fs.lookup k with
    | some v => .ok v
    | none => .ok .jnull
  | _, _ => .error ()

/-- Python `d.get(k)` where `d` is statically known to be a dict (its
field list is in hand): a missing key yields `None`. -/
def dget (fs : List (String × JVal)) (k : String) : JVal :=
  (fs.lookup k).getD .jnull

/-- Python `v == s` comparing an arbitrary value with a string literal:
only an equal string compares true. -/
def jeqStr : JVal → String → Bool
  | .jstr t, s => t == s
  | _, _ => false

/-- Decimal value of one digit character. -/
def digitVal (c : Char) : Option Nat :=
  if c = '0' then some 0 else if c = '1' then some 1 else if c = '2' then some 2
  else if c = '3' then some 3 else if c = '4' then some 4 else if c = '5' then some 5
  else if c = '6' then some 6 else if c = '7' then some 7 else if c = '8' then some 8
  else if c = '9' then some 9 else none

/-- Decimal value of a digit-character list, `none` on any non-digit. -/
def digitsToNat (acc : Nat) : List Char → Option Nat
  | [] => some acc
  | c :: rest =>
    match digitVal c with
    | some d => digitsToNat (acc * 10 + d) rest
    | none => none

/-- Decimal integer parse of a string, as Python `int(...)` accepts it:
an optional minus sign followed by at least one digit. -/
def parseIntStr (s : String) : Option Int :=
  match s.data with
  | [] => none
  | c :: rest =>
    if c = '-' then
      match rest with
      | [] => none
      | _ => (digitsToNat 0 rest).map (fun n => -(n : Int))
    else (digitsToNat 0 (c :: rest)).map (fun n => (n : Int))

/-- Python `int(v)`: ints pass through, decimal strings are parsed, and
everything else (None, dicts, non-numeric strings) raises. -/
def pint : JVal → Except Unit Int
  | .jint n => .ok n
  | .jstr s =>
    match parseIntStr s with
    | some n => .ok n
    | none => .error ()
  | _ => .error ()

/-- Python `k in d` for a dict `d`: string keys are present iff listed,
`None` and ints are hashable but never equal a string key, a dict key is
unhashable and raises; `in` applied to a non-dict raises (the source only
applies it to values it expects to be the by-device error dict). -/
def jmem (k : JVal) (d : JVal) : Except Unit Bool :=
  match d with
  | .jobj fs =>
    match k with
    | .jstr s => .ok (fs.any (fun p => p.1 == s))
    | .jnull => .ok false
    | .jint _ => .ok false
    | .jobj _ => .error ()
  | _ => .error ()

/-- `celsiusToAdc` from the source: `int(410 + (celsius - 5)*18)`, exact
on integer inputs. -/
def celsiusToAdc (celsius : Int) : Int :=
  410 + (celsius - 5) * 18

/-- `adcToCelsius` from the source, on an already-parsed integer: values
below 410 pass through unchanged, otherwise Python computes
`int((adc - 410)/18 + 5)`, i.e. float division truncated toward zero,
which on the nonnegative operand `adc - 410` is integer floor division. -/
def adcToCelsius (adc : Int) : Int :=
  if adc < 410 then adc else (adc - 410) / 18 + 5

/-- `adcToCelsius` applied to a raw JSON field: the source first runs
`int(adc)`, which raises on None or non-numeric input. -/
def adcToCelsiusJ (j : JVal) : Except Unit Int := do
  let a ← pint j
  pure (adcToCelsius a)

/-- The `Room` class of the source: every field defaults to `None`. -/
structure Room where
  zone_id : JVal := .jnull
  name : JVal := .jnull
  num_zone : JVal := .jnull
  label_zone_type : JVal := .jnull
  picto_zone_type : JVal := .jnull
  zone_img_id : JVal := .jnull
  address_position : JVal := .jnull
  deriving DecidableEq

/-- The `Heater` class of the source.  Temperature fields hold the
decoded Celsius integers that `set_heater_values` stores into them; the
raw telemetry fields hold the JSON values unchanged; the derived flags
are as computed by `set_heater_values`.  Defaults play the role of the
class-level `None`/`False` initialisers and are overwritten wholesale by
every merge. -/
structure Heater where
  device_id : JVal := .jnull
  nom_appareil : JVal := .jnull
  num_zone : JVal := .jnull
  id_appareil : JVal := .jnull
  current_temp : Int := 0
  consigne_confort : Int := 0
  consigne_hg : Int := 0
  consigne_eco : Int := 0
  consigne_boost : Int := 0
  consigne_manuel : Int := 0
  min_set_point : Int := 0
  max_set_point : Int := 0
  date_start_boost : JVal := .jnull
  time_boost : JVal := .jnull
  nv_mode : JVal := .jnull
  temperature_sol : Int := 0
  power_status : Nat := 1
  pourcent_light : JVal := .jnull
  status_com : JVal := .jnull
  recep_status_global : JVal := .jnull
  gv_mode : JVal := .jnull
  puissance_app : JVal := .jnull
  smarthome_id : JVal := .jnull
  bundle_id : JVal := .jnull
  date_update : JVal := .jnull
  heating_up : Bool := false
  heat_cool : JVal := .jnull
  fan_speed : JVal := .jnull
  room : Option Room := none
  available : Bool := false
  fan_status : Nat := 0
  deriving DecidableEq

/-- `set_heater_values` from the source: decodes all nine temperature
fields through `adcToCelsius` (any of the nine `int()` calls raising
makes the whole merge raise: `.error`), copies the raw telemetry fields,
derives `power_status` (0 iff manual setpoint `"0"`, `nv_mode` `"0"` and
`gv_mode` `"1"`), `heating_up`, `fan_status`, sets `available` to False
(the caller overwrites it from the error report), and resolves the room
reference by `num_zone`. -/
def set_heater_values (rooms : List (JVal × Room)) (heater_data : JVal)
    (heater : Heater) : Except Unit Heater :=
  match heater_data with
  | .jobj fs =>
    match adcToCelsiusJ (dget fs "temperature_air"),
        adcToCelsiusJ (dget fs "consigne_confort"),
        adcToCelsiusJ (dget fs "consigne_hg"),
        adcToCelsiusJ (dget fs "consigne_boost"),
        adcToCelsiusJ (dget fs "consigne_eco"),
        adcToCelsiusJ (dget fs "consigne_manuel"),
        adcToCelsiusJ (dget fs "min_set_point"),
        adcToCelsiusJ (dget fs "max_set_point"),
        adcToCelsiusJ (dget fs "temperature_sol") with
    | .ok ta, .ok cc, .ok chg, .ok cb, .ok ce, .ok cm, .ok mn, .ok mx, .ok ts =>
      .ok { heater with
        current_temp := ta
        consigne_confort := cc
        consigne_hg := chg
        consigne_boost := cb
        consigne_eco := ce
        consigne_manuel := cm
        min_set_point := mn
        max_set_point := mx
        num_zone := dget fs "num_zone"
        id_appareil := dget fs "id_appareil"
        date_start_boost := dget fs "date_start_boost"
        time_boost := dget fs "time_boost"
        nv_mode := dget fs "nv_mode"
        gv_mode := dget fs "gv_mode"
        temperature_sol := ts
        power_status :=
          if jeqStr (dget fs "consigne_manuel") "0"
              && jeqStr (dget fs "nv_mode") "0"
              && jeqStr (dget fs "gv_mode") "1" then 0 else 1
        pourcent_light := dget fs "pourcent_light"
        status_com := dget fs "status_com"
        recep_status_global := dget fs "recep_status_global"
        puissance_app := dget fs "puissance_app"
        smarthome_id := dget fs "smarthome_id"
        bundle_id := dget fs "bundle_id"
        date_update := dget fs "date_update"
        heating_up := if jeqStr (dget fs "heating_up") "0" then false else true
        heat_cool := dget fs "heat_cool"
        fan_speed := dget fs "fan_speed"
        available := false
        room := rooms.lookup (dget fs "num_zone")
        nom_appareil := dget fs "nom_appareil"
        fan_status := if jeqStr (dget fs "fan_speed") "0" then 0 else 1 }
    | _, _, _, _, _, _, _, _, _ => .error ()
  | _ => .error ()

/-- The session fields of the `Lvi` object: token, user id and token
expiry, each initially `None` (`jnull`) and assigned only by a fully
successful `connect`. -/
structure LviState where
  token : JVal := .jnull
  user_id : JVal := .jnull
  token_expire : JVal := .jnull
  deriving DecidableEq

/-- Python `v is None`. -/
def pyIsNone : JVal → Bool
  | .jnull => true
  | _ => false

/-- Outcome of one POST to the auth endpoint: a transport-level
exception (`asyncio.TimeoutError` or `aiohttp.ClientError`), or a
response whose body either fails `json.loads` (`response none`) or
parses to a JSON value. -/
inductive AuthOutcome where
  | transportErr : AuthOutcome
  | response : Option JVal → AuthOutcome

/-- The value a Python call produces: a returned value, or an uncaught
exception propagating to the caller. -/
inductive PyResult (α : Type) where
  | ok : α → PyResult α
  | exn : PyResult α
  deriving DecidableEq

/-- Result of a `connect` call: its return value (or propagated
exception), the session state afterwards, and the index of the next
unconsumed auth-endpoint outcome. -/
structure ConnectOut where
  res : PyResult Bool
  st : LviState
  authIdx : Nat
  deriving DecidableEq

/-- The access path `data.get('code').get('code')` of `connect` and
`request`. -/
def codeChain (data : JVal) : Except Unit JVal :=
  jget data "code" >>= fun c => jget c "code"

/-- The access path `data.get('data').get('token')`. -/
def tokenChain (data : JVal) : Except Unit JVal :=
  jget data "data" >>= fun d => jget d "token"

/-- The access path `data.get('data').get('user_infos').get('user_id')`. -/
def userIdChain (data : JVal) : Except Unit JVal :=
  jget data "data" >>= fun d => jget d "user_infos" >>= fun u => jget u "user_id"

/-- The access path `data.get('data').get('user_infos').get('token_expire')`. -/
def expireChain (data : JVal) : Except Unit JVal :=
  jget data "data" >>= fun d => jget d "user_infos" >>= fun u => jget u "token_expire"

/-- One `Lvi.connect` attempt after the POST's outcome `o` is known
(the transcription of the source's `connect` body after its
try/except).  `onTransport` is what the except-handler produces: the
caller (`connect`) passes either the give-up value (budget spent) or
the recursive retry.  A body that fails `json.loads`, or whose
`code`/`data` containers are missing so an attribute access on `None`
is attempted, raises; the explicit failure code `'3'`, a missing
token, user id or expiry return False; only the all-good path assigns
the three session fields. -/
def connectGo (st : LviState) (idx : Nat) (o : AuthOutcome)
    (onTransport : ConnectOut) : ConnectOut :=
  match o with
  | .transportErr => onTransport
  | .response none => ⟨.exn, st, idx + 1⟩
  | .response (some data) =>
    match codeChain data with
    | .error _ => ⟨.exn, st, idx + 1⟩
    | .ok cc =>
      if jeqStr cc "3" then ⟨.ok false, st, idx + 1⟩
      else
        match tokenChain data with
        | .error _ => ⟨.exn, st, idx + 1⟩
        | .ok tk =>
          if pyIsNone tk then ⟨.ok false, st, idx + 1⟩
          else
            match userIdChain data with
            | .error _ => ⟨.exn, st, idx + 1⟩
            | .ok uid =>
              if pyIsNone uid then ⟨.ok false, st, idx + 1⟩
              else
                match expireChain data with
                | .error _ => ⟨.exn, st, idx + 1⟩
                | .ok texp =>
                  if pyIsNone texp then ⟨.ok false, st, idx + 1⟩
                  else ⟨.ok true, ⟨tk, uid, texp⟩, idx + 1⟩

/-- `Lvi.connect` from the source.  `auth` maps the global auth-attempt
index to that attempt's outcome; `retry` is the remaining transport
retry budget (default 2 at call sites).  A transport error with
`retry < 1` gives up with False, otherwise the whole call is retried
with `retry - 1`; everything else is handled by `connectGo`. -/
def connect (auth : Nat → AuthOutcome) (st : LviState) :
    Nat → Nat → ConnectOut
  | 0, idx => connectGo st idx (auth idx) ⟨.ok false, st, idx + 1⟩
  | retry + 1, idx =>
    connectGo st idx (auth idx) (connect auth st retry (idx + 1))

theorem connect_eq (auth : Nat → AuthOutcome) (st : LviState)
    (retry idx : Nat) :
    connect auth st retry idx =
      connectGo st idx (auth idx)
        (match retry with
         | 0 => ⟨.ok false, st, idx + 1⟩
         | r + 1 => connect auth st r (idx + 1)) := by
  cases retry <;> rfl

/-- Model of `datetime.strptime` on the stored expiry value: only a
well-formed timestamp string parses (timestamps are modelled as the
naturals their digit strings encode); `strptime(None, ...)` or a
malformed string raises. -/
def parseExpire : JVal → Option Nat
  | .jstr s =>
    match s.data with
    | [] => none
    | c :: rest => digitsToNat 0 (c :: rest)
  | _ => none

/-- Outcome of one POST of the main request: timeout, connection-level
`aiohttp.ClientError`, or a response whose body text is falsy
(`empty`), fails `json.loads` (`invalid`) or parses. -/
inductive NetOutcome where
  | timeout : NetOutcome
  | clientError : NetOutcome
  | response : Option (Option JVal) → NetOutcome

/-- The value `Lvi.request` hands back to its caller.  `rcoro r` is the
un-awaited coroutine object `self.request(command, formData, r)` that
line 131 of the source returns (the `return` there lacks an `await`, so
the recursive call is created but never run). -/
inductive ReqVal where
  | rnone : ReqVal
  | rfalse : ReqVal
  | rdata : JVal → ReqVal
  | rcoro : Int → ReqVal
  | rexn : ReqVal
  deriving DecidableEq

/-- Trace of one `Lvi.request` call: its value, the session state
afterwards, how many main-endpoint network attempts it made, how many
`connect` calls it made, and the next unconsumed network/auth outcome
indices. -/
structure ReqTrace where
  result : ReqVal
  st : LviState
  netAttempts : Nat
  connectCalls : Nat
  netIdx : Nat
  authIdx : Nat
  deriving DecidableEq

/-- One `Lvi.request` pass over the source's body, after the POST
outcome `o` for this attempt is known.  In source order: fail with
None when no token is held; if the stored expiry parses to a time at
or before `now`, run `connect()` (budget 2) and on its failure return
None, on its success return the recursive call NOT awaited (`rcoro`);
otherwise classify the POST outcome: `onTimeout` is what the
timeout-handler produces (the caller passes the give-up value or the
decremented retry, per the source's `if retry < 1`); a `ClientError`
returns None at once; an empty body returns None; a body that fails
`json.loads` raises; a body whose status code is neither `'1'` nor
`'8'` returns False; otherwise the parsed data is returned. -/
def requestGo (auth : Nat → AuthOutcome) (now : Nat) (st : LviState)
    (retry netIdx authIdx : Nat) (o : NetOutcome) (onTimeout : ReqTrace) :
    ReqTrace :=
  if pyIsNone st.token then ⟨.rnone, st, 0, 0, netIdx, authIdx⟩
  else
    match parseExpire st.token_expire with
    | none => ⟨.rexn, st, 0, 0, netIdx, authIdx⟩
    | some texp =>
      if texp ≤ now then
        let c := connect auth st 2 authIdx
        match c.res with
        | .exn => ⟨.rexn, c.st, 0, 1, netIdx, c.authIdx⟩
        | .ok false => ⟨.rnone, c.st, 0, 1, netIdx, c.authIdx⟩
        | .ok true => ⟨.rcoro ((retry : Int) - 1), c.st, 0, 1, netIdx, c.authIdx⟩
      else
        match o with
        | .timeout => onTimeout
        | .clientError => ⟨.rnone, st, 1, 0, netIdx + 1, authIdx⟩
        | .response none => ⟨.rnone, st, 1, 0, netIdx + 1, authIdx⟩
        | .response (some none) => ⟨.rexn, st, 1, 0, netIdx + 1, authIdx⟩
        | .response (some (some data)) =>
          match codeChain data with
          | .error _ => ⟨.rexn, st, 1, 0, netIdx + 1, authIdx⟩
          | .ok cc =>
            if !(jeqStr cc "1") && !(jeqStr cc "8") then
              ⟨.rfalse, st, 1, 0, netIdx + 1, authIdx⟩
            else ⟨.rdata data, st, 1, 0, netIdx + 1, authIdx⟩

/-- `Lvi.request` from the source.  `net` maps the global main-endpoint
attempt index to its outcome, `auth` feeds any nested `connect`, `now`
is the frozen local clock.  The timeout handler gives up with None when
`retry < 1` and otherwise retries with `retry - 1` (awaited — line 151
of the source), accumulating the attempt count; everything else is
`requestGo`. -/
def request (net : Nat → NetOutcome) (auth : Nat → AuthOutcome) (now : Nat)
    (st : LviState) : Nat → Nat → Nat → ReqTrace
  | 0, netIdx, authIdx =>
    requestGo auth now st 0 netIdx authIdx (net netIdx)
      ⟨.rnone, st, 1, 0, netIdx + 1, authIdx⟩
  | retry + 1, netIdx, authIdx =>
    requestGo auth now st (retry + 1) netIdx authIdx (net netIdx)
      (let t := request net auth now st retry (netIdx + 1) authIdx
       ⟨t.result, t.st, t.netAttempts + 1, t.connectCalls, t.netIdx, t.authIdx⟩)

theorem request_eq (net : Nat → NetOutcome) (auth : Nat → AuthOutcome)
    (now : Nat) (st : LviState) (retry netIdx authIdx : Nat) :
    request net auth now st retry netIdx authIdx =
      requestGo auth now st retry netIdx authIdx (net netIdx)
        (match retry with
         | 0 => ⟨.rnone, st, 1, 0, netIdx + 1, authIdx⟩
         | r + 1 =>
           let t := request net auth now st r (netIdx + 1) authIdx
           ⟨t.result, t.st, t.netAttempts + 1, t.connectCalls, t.netIdx, t.authIdx⟩) := by
  cases retry <;> rfl

/-- What `get_smarthome_list` hands back: the Python empty list `[]`
(when the request returned None), or the `smarthomes` JSON value. -/
inductive SmartListResult where
  | emptyList : SmartListResult
  | homes : JVal → SmartListResult
  deriving DecidableEq

/-- `Lvi.get_smarthome_list` from the source, applied to the value the
`user/read` request produced: None becomes the empty list; a data dict
is drilled with `.get('data').get('smarthomes')` (raising when a
container is absent); any other request value (False, a propagating
exception, an un-awaited coroutine) makes the attribute access raise. -/
def get_smarthome_list (resp : ReqVal) : PyResult SmartListResult :=
  match resp with
  | .rnone => .ok .emptyList
  | .rdata v =>
    match jget v "data" >>= fun d => jget d "smarthomes" with
    | .ok h => .ok (.homes h)
    | .error _ => .exn
  | _ => .exn

/-- The access path `resp.get(k1).get(k2)` applied to a request value:
only a returned data dict can be drilled; None/False/a coroutine raise. -/
def reqData (resp : ReqVal) (k1 k2 : String) : Except Unit JVal :=
  match resp with
  | .rdata v => jget v k1 >>= fun d => jget d k2
  | _ => .error ()

/-- Python dict assignment `d[k] = v` on an association list: replaces
the entry when the key is present, appends otherwise. -/
def dictSet {β : Type} (l : List (JVal × β)) (k : JVal) (v : β) :
    List (JVal × β) :=
  if l.any (fun p => p.1 == k) then
    l.map (fun p => if p.1 == k then (k, v) else p)
  else l ++ [(k, v)]

/-- One iteration of the `update_rooms` zone loop: `zone_data[key]`
must be a dict (else the `.get` calls raise), the existing room for
that `num_zone` (or a fresh `Room()`) has its fields overwritten, and
the registry entry is stored back under `num_zone`. -/
def mergeZone (rooms : List (JVal × Room)) (k : String) (zv : JVal) :
    Except Unit (List (JVal × Room)) :=
  match zv with
  | .jobj zfs =>
    let idx := dget zfs "num_zone"
    let room := (rooms.lookup idx).getD {}
    let room2 : Room :=
      { room with
        zone_id := .jstr k
        name := dget zfs "zone_label"
        num_zone := idx
        label_zone_type := dget zfs "label_zone_type"
        picto_zone_type := dget zfs "picto_zone_type"
        zone_img_id := dget zfs "zone_img_id"
        address_position := dget zfs "address_position" }
    .ok (dictSet rooms idx room2)
  | _ => .error ()

/-- The `update_rooms` zone loop.  The registry is mutated in place per
iteration, so an exception midway leaves the earlier merges applied. -/
def mergeZones : List (JVal × Room) → List (String × JVal) →
    Except Unit Unit × List (JVal × Room)
  | rooms, [] => (.ok (), rooms)
  | rooms, (k, zv) :: rest =>
    match mergeZone rooms k zv with
    | .error e => (.error e, rooms)
    | .ok r2 => mergeZones r2 rest

/-- `Lvi.update_rooms` from the source, with the two request results it
consumes passed in (`respUser` for `user/read` inside
`get_smarthome_list`, `respRead` for `/smarthome/read/`).  The lookup
`homes.get('0')` raises on the Python list `[]` (lists have no `.get`),
so an empty home list aborts before touching the registry.  Iterating
zones over a non-dict raises, except that iterating an empty string
runs the loop zero times. -/
def update_rooms (respUser respRead : ReqVal)
    (rooms : List (JVal × Room)) : PyResult Unit × List (JVal × Room) :=
  match get_smarthome_list respUser with
  | .exn => (.exn, rooms)
  | .ok .emptyList => (.exn, rooms)
  | .ok (.homes h) =>
    match jget h "0" >>= fun h0 => jget h0 "smarthome_id" with
    | .error _ => (.exn, rooms)
    | .ok _sid =>
      match reqData respRead "data" "zones" with
      | .error _ => (.exn, rooms)
      | .ok (.jobj zfs) =>
        match mergeZones rooms zfs with
        | (.ok _, r2) => (.ok (), r2)
        | (.error _, r2) => (.exn, r2)
      | .ok (.jstr s) => if s.isEmpty then (.ok (), rooms) else (.exn, rooms)
      | .ok _ => (.exn, rooms)

/-- One iteration of the `update_heaters` device loop:
`heater_data[_key]` must be a dict, the existing heater for that
`id_device` (or a fresh `Heater()`) is merged through
`set_heater_values`, `available` is set from membership of the id in
the by-device error report, and the entry is stored back. -/
def mergeHeater (rooms : List (JVal × Room)) (heaters : List (JVal × Heater))
    (errorsData : JVal) (hv : JVal) : Except Unit (List (JVal × Heater)) :=
  match hv with
  | .jobj hfs =>
    let devId := dget hfs "id_device"
    let heater := (heaters.lookup devId).getD {}
    let heater2 : Heater := { heater with device_id := devId }
    match set_heater_values rooms (.jobj hfs) heater2 with
    | .error e => .error e
    | .ok h2 =>
      match jmem devId errorsData with
      | .error e => .error e
      | .ok b =>
        .ok (dictSet heaters devId { h2 with available := !b })
  | _ => .error ()

/-- The `update_heaters` device loop, mutating the registry per
iteration like the zone loop. -/
def mergeHeaters (rooms : List (JVal × Room)) (errorsData : JVal) :
    List (JVal × Heater) → List (String × JVal) →
    Except Unit Unit × List (JVal × Heater)
  | heaters, [] => (.ok (), heaters)
  | heaters, (_, hv) :: rest =>
    match mergeHeater rooms heaters errorsData hv with
    | .error e => (.error e, heaters)
    | .ok h2 => mergeHeaters rooms errorsData h2 rest

/-- `Lvi.update_heaters` from the source, with its three request
results passed in (`user/read`, `/smarthome/read/`,
`/smarthome/get_errors/`).  Like `update_rooms`, the lookup
`smarthome.get('0')` raises on the empty list before any registry
mutation. -/
def update_heaters (respUser respRead respErr : ReqVal)
    (rooms : List (JVal × Room)) (heaters : List (JVal × Heater)) :
    PyResult Unit × List (JVal × Heater) :=
  match get_smarthome_list respUser with
  | .exn => (.exn, heaters)
  | .ok .emptyList => (.exn, heaters)
  | .ok (.homes h) =>
    match jget h "0" >>= fun h0 => jget h0 "smarthome_id" with
    | .error _ => (.exn, heaters)
    | .ok _sid =>
      match reqData respRead "data" "devices" with
      | .error _ => (.exn, heaters)
      | .ok hd =>
        match reqData respErr "data" "results" >>= fun r => jget r "by_device" with
        | .error _ => (.exn, heaters)
        | .ok errorsData =>
          match hd with
          | .jobj hfs =>
            match mergeHeaters rooms errorsData heaters hfs with
            | (.ok _, h2) => (.ok (), h2)
            | (.error _, h2) => (.exn, h2)
          | .jstr s => if s.isEmpty then (.ok (), heaters) else (.exn, heaters)
          | _ => (.exn, heaters)

/-- `MIN_TIME_BETWEEN_UPDATES` from the source: 2 seconds (time is
modelled in whole seconds). -/
def MIN_TIME_BETWEEN_UPDATES : Nat := 2

/-- The two per-operation-kind throttle timestamps of the `Lvi`
object, both initially `None`. -/
structure ThrottleState where
  throttle_time : Option Nat := none
  throttle_all_time : Option Nat := none
  deriving DecidableEq

/-- `Lvi.throttle_update_heaters` from the source: a no-op when a
previous device refresh ran less than `MIN_TIME_BETWEEN_UPDATES` ago,
otherwise it stamps the current time and fetches (the Bool reports
whether `update_heaters` was invoked). -/
def throttle_update_heaters (now : Nat) (st : ThrottleState) :
    Bool × ThrottleState :=
  match st.throttle_time with
  | some t =>
    if now - t < MIN_TIME_BETWEEN_UPDATES then (false, st)
    else (true, { st with throttle_time := some now })
  | none => (true, { st with throttle_time := some now })

/-- `Lvi.throttle_update_all_heaters` from the source: the same gate
over the independent `_throttle_all_time` stamp, guarding
`find_all_heaters`. -/
def throttle_update_all_heaters (now : Nat) (st : ThrottleState) :
    Bool × ThrottleState :=
  match st.throttle_all_time with
  | some t =>
    if now - t < MIN_TIME_BETWEEN_UPDATES then (false, st)
    else (true, { st with throttle_all_time := some now })
  | none => (true, { st with throttle_all_time := some now })

/-- Result of `set_heater_preset` on a known device: the locally
mutated heater and the form fields of the submitted `query/push/`
request, in the order `add_field` was called. -/
structure PresetOut where
  heater : Heater
  fields : List (String × JVal)
  deriving DecidableEq

/-- `Lvi.set_heater_preset` from the source: an if/elif chain on the
exact preset string.  Every branch first carries the common
id/context/smarthome fields, optimistically assigns the local
`gv_mode`, and adds its mode codes and setpoint fields.  Note the
branch labels: `'comfort'`, `'Program'` (capitalised), `'eco'`,
`'boost'`, `'off'`, with everything else falling to the mode-2 default
branch. -/
def set_heater_preset (preset : String) (device_id : JVal) (h : Heater) :
    PresetOut :=
  let base := [("query[id_device]", device_id), ("context", JVal.jstr "1"),
               ("smarthome_id", h.smarthome_id)]
  if preset = "comfort" then
    ⟨{ h with gv_mode := .jint 0 },
     base ++ [("query[gv_mode]", .jint 0), ("query[nv_mode]", .jint 0),
              ("query[consigne_confort]", .jint (celsiusToAdc h.consigne_confort)),
              ("query[consigne_manuel]", .jint (celsiusToAdc h.consigne_manuel))]⟩
  else if preset = "Program" then
    ⟨{ h with gv_mode := .jint 8 },
     base ++ [("query[gv_mode]", .jint 8), ("query[nv_mode]", .jint 8),
              ("query[consigne_manuel]", .jint (celsiusToAdc h.consigne_manuel))]⟩
  else if preset = "eco" then
    ⟨{ h with gv_mode := .jint 3 },
     base ++ [("query[gv_mode]", .jint 3), ("query[nv_mode]", .jint 3),
              ("query[consigne_eco]", .jint (celsiusToAdc h.consigne_eco)),
              ("query[consigne_manuel]", .jint (celsiusToAdc h.consigne_manuel))]⟩
  else if preset = "boost" then
    ⟨{ h with gv_mode := .jint 4 },
     base ++ [("query[gv_mode]", .jint 4), ("query[nv_mode]", .jint 4),
              ("query[time_boost]", .jint 7200),
              ("query[consigne_boost]", .jint (celsiusToAdc h.consigne_boost)),
              ("query[consigne_manuel]", .jint (celsiusToAdc h.consigne_manuel))]⟩
  else if preset = "off" then
    ⟨{ h with gv_mode := .jint 1 },
     base ++ [("query[gv_mode]", .jint 1), ("query[nv_mode]", .jint 1),
              ("query[consigne_manuel]", .jint 0)]⟩
  else
    ⟨{ h with gv_mode := .jint 2 },
     base ++ [("query[gv_mode]", .jint 2), ("query[nv_mode]", .jint 2),
              ("query[consigne_manuel]", .jint (celsiusToAdc h.consigne_manuel)),
              ("query[consigne_hg]", .jint (celsiusToAdc h.consigne_hg))]⟩

/-! ### General lemmas about the embedding -/

theorem jeqStr_iff (j : JVal) (s : String) : jeqStr j s = true ↔ j = .jstr s := by
  cases j <;> simp [jeqStr]

theorem jeqStr_eq_false (j : JVal) (s : String) :
    jeqStr j s = false ↔ ¬ j = .jstr s := by
  rw [← Bool.not_eq_true, jeqStr_iff]

/-! ### Claim C5: the device-units-to-Celsius decoder -/

/-- C5, counterexample: the claim says `device_units_to_celsius(u)` is
`round((u - 410)/18 + 5)` for `u ≥ 410`, but the source truncates with
`int(...)`: at `u = 427` the code yields 5 while rounding yields 6. -/
theorem C5_counterexample :
    adcToCelsius 427 = 5 ∧ round (((427 : ℚ) - 410) / 18 + 5) = 6 := by
  constructor
  · decide
  · rw [round_eq, Int.floor_eq_iff]
    constructor <;> norm_num

/-- C5 (amended): `adcToCelsius` returns `u` unchanged for `u < 410`
and the FLOOR of `(u - 410)/18 + 5` (Python `int(...)` truncation,
which equals the floor on this nonnegative range) for `u ≥ 410`; the
three quoted instances 410 ↦ 5, 770 ↦ 25 and 100 ↦ 100 hold. -/
theorem C5_adcToCelsius_floor (u : Int) :
    (u < 410 → adcToCelsius u = u) ∧
    (410 ≤ u → adcToCelsius u = ⌊((u : ℚ) - 410) / 18 + 5⌋) ∧
    adcToCelsius 410 = 5 ∧ adcToCelsius 770 = 25 ∧ adcToCelsius 100 = 100 := by
  refine ⟨fun h => by simp [adcToCelsius, h], fun h => ?_, by decide, by decide, by decide⟩
  have hq : ((u : ℚ) - 410) / 18 + 5 =
      ((u - 410 : ℤ) : ℚ) / ((18 : ℕ) : ℚ) + ((5 : ℤ) : ℚ) := by
    push_cast
    ring
  rw [hq, Int.floor_add_int, Rat.floor_intCast_div_natCast]
  rw [adcToCelsius, if_neg (by omega)]
  norm_num

/-- C5, witness for the amended theorem at `u = 500`. -/
theorem C5_witness :
    (410 : Int) ≤ 500 ∧ adcToCelsius 500 = ⌊((500 : ℚ) - 410) / 18 + 5⌋ :=
  ⟨by decide, (C5_adcToCelsius_floor 500).2.1 (by decide)⟩

/-! ### Claim C6: the derived power status -/

/-- C6: for every device record the reconciler merges successfully, the
derived `power_status` is 0 exactly when the record's manual setpoint is
the string `"0"`, `nv_mode` is `"0"` and `gv_mode` is `"1"`; in every
other combination it is 1. -/
theorem C6_power_status_derivation (rooms : List (JVal × Room))
    (fs : List (String × JVal)) (ht h2 : Heater)
    (hmerge : set_heater_values rooms (.jobj fs) ht = .ok h2) :
    (h2.power_status = 0 ↔
      (dget fs "consigne_manuel" = .jstr "0" ∧ dget fs "nv_mode" = .jstr "0" ∧
       dget fs "gv_mode" = .jstr "1")) ∧
    (h2.power_status = 0 ∨ h2.power_status = 1) := by
  rw [set_heater_values] at hmerge
  split at hmerge
  case h_2 => exact absurd hmerge (by simp)
  case h_1 =>
    injection hmerge with hmm
    subst hmm
    constructor
    · by_cases h0 : dget fs "consigne_manuel" = JVal.jstr "0" <;>
        by_cases hn : dget fs "nv_mode" = JVal.jstr "0" <;>
          by_cases hg : dget fs "gv_mode" = JVal.jstr "1" <;>
            simp only [Bool.and_eq_true, jeqStr_iff] <;>
              simp [h0, hn, hg]
    · by_cases hb : (jeqStr (dget fs "consigne_manuel") "0"
          && jeqStr (dget fs "nv_mode") "0"
          && jeqStr (dget fs "gv_mode") "1") = true <;> simp [hb]

/-- C6, witness: a concrete record with manual setpoint `"0"`,
`nv_mode` `"0"`, `gv_mode` `"1"` merges to `power_status` 0. -/
def C6record : List (String × JVal) :=
  [("temperature_air", .jstr "500"), ("consigne_confort", .jstr "520"),
   ("consigne_hg", .jstr "450"), ("consigne_boost", .jstr "530"),
   ("consigne_eco", .jstr "480"), ("consigne_manuel", .jstr "0"),
   ("min_set_point", .jstr "410"), ("max_set_point", .jstr "770"),
   ("temperature_sol", .jstr "460"), ("nv_mode", .jstr "0"),
   ("gv_mode", .jstr "1"), ("fan_speed", .jstr "3"), ("id_device", .jstr "d1")]

/-- The heater the merge of `C6record` produces. -/
def C6merged : Heater :=
  match set_heater_values [] (.jobj C6record) {} with
  | .ok h => h
  | .error _ => {}

/-- C6, witness theorem at the concrete record. -/
theorem C6_witness :
    (C6merged.power_status = 0 ↔
      (dget C6record "consigne_manuel" = .jstr "0" ∧
       dget C6record "nv_mode" = .jstr "0" ∧
       dget C6record "gv_mode" = .jstr "1")) ∧ C6merged.power_status = 0 :=
  ⟨(C6_power_status_derivation [] C6record {} C6merged (by rfl)).1, by decide⟩

/-! ### Claim C7: the preset command named program -/

/-- C7, counterexample: issuing the preset command with the name
`"program"` (as the claim spells it) does NOT set mode 8: the source
only matches the capitalised string `'Program'`, so `"program"` falls
to the default branch and sets gv_mode 2. -/
theorem C7_counterexample :
    (set_heater_preset "program" (.jstr "d1") {}).heater.gv_mode = .jint 2 ∧
    JVal.jint 2 ≠ JVal.jint 8 := by
  decide

/-- C7 (amended): the preset branch is selected by the exact string
`"Program"` (capitalised): it sets the local heater's gv_mode to 8 and
submits mode code 8 as both gv_mode and nv_mode together with the
manual-setpoint field; the lowercase name `"program"` is unrecognised
and falls to the default branch (mode 2, manual + frost-guard
setpoints). -/
theorem C7_preset_dispatch (did : JVal) (h : Heater) :
    set_heater_preset "Program" did h =
      ⟨{ h with gv_mode := .jint 8 },
       [("query[id_device]", did), ("context", .jstr "1"),
        ("smarthome_id", h.smarthome_id),
        ("query[gv_mode]", .jint 8), ("query[nv_mode]", .jint 8),
        ("query[consigne_manuel]", .jint (celsiusToAdc h.consigne_manuel))]⟩ ∧
    set_heater_preset "program" did h =
      ⟨{ h with gv_mode := .jint 2 },
       [("query[id_device]", did), ("context", .jstr "1"),
        ("smarthome_id", h.smarthome_id),
        ("query[gv_mode]", .jint 2), ("query[nv_mode]", .jint 2),
        ("query[consigne_manuel]", .jint (celsiusToAdc h.consigne_manuel)),
        ("query[consigne_hg]", .jint (celsiusToAdc h.consigne_hg))]⟩ :=
  ⟨rfl, rfl⟩

/-! ### Claim C9: the throttle guard -/

/-- C9: a same-kind refresh issued less than `MIN_TIME_BETWEEN_UPDATES`
(2 seconds) after the last run of that kind is a no-op (no fetch, state
untouched); otherwise it fetches and stamps the current time; and each
guard leaves the other kind's timestamp untouched. -/
theorem C9_throttle_guard (st : ThrottleState) (t1 t2 : Nat)
    (hlast : st.throttle_time = some t1) :
    (t2 - t1 < 2 → throttle_update_heaters t2 st = (false, st)) ∧
    (2 ≤ t2 - t1 →
      throttle_update_heaters t2 st = (true, { st with throttle_time := some t2 })) ∧
    (throttle_update_heaters t2 st).2.throttle_all_time = st.throttle_all_time ∧
    ∀ st2 : ThrottleState, ∀ s1 s2 : Nat, st2.throttle_all_time = some s1 →
      ((s2 - s1 < 2 → throttle_update_all_heaters s2 st2 = (false, st2)) ∧
       (2 ≤ s2 - s1 →
         throttle_update_all_heaters s2 st2 =
           (true, { st2 with throttle_all_time := some s2 })) ∧
       (throttle_update_all_heaters s2 st2).2.throttle_time = st2.throttle_time) := by
  refine ⟨?_, ?_, ?_, ?_⟩
  · intro hlt
    simp only [throttle_update_heaters, hlast, MIN_TIME_BETWEEN_UPDATES]
    rw [if_pos hlt]
  · intro hge
    simp only [throttle_update_heaters, hlast, MIN_TIME_BETWEEN_UPDATES]
    rw [if_neg (by omega)]
  · simp only [throttle_update_heaters, hlast, MIN_TIME_BETWEEN_UPDATES]
    split <;> rfl
  · intro st2 s1 s2 hlast2
    refine ⟨?_, ?_, ?_⟩
    · intro hlt
      simp only [throttle_update_all_heaters, hlast2, MIN_TIME_BETWEEN_UPDATES]
      rw [if_pos hlt]
    · intro hge
      simp only [throttle_update_all_heaters, hlast2, MIN_TIME_BETWEEN_UPDATES]
      rw [if_neg (by omega)]
    · simp only [throttle_update_all_heaters, hlast2, MIN_TIME_BETWEEN_UPDATES]
      split <;> rfl

/-- C9, witness: with a last device refresh at second 2, a call at
second 3 is a no-op and a call at second 4 fetches and restamps. -/
theorem C9_witness :
    throttle_update_heaters 3 ⟨some 2, some 0⟩ = (false, ⟨some 2, some 0⟩) ∧
    throttle_update_heaters 4 ⟨some 2, some 0⟩ = (true, ⟨some 4, some 0⟩) :=
  ⟨(C9_throttle_guard ⟨some 2, some 0⟩ 2 3 rfl).1 (by decide),
   (C9_throttle_guard ⟨some 2, some 0⟩ 2 4 rfl).2.1 (by decide)⟩

/-! ### Claim C10: refresh on an empty home list -/

/-- C10: when the home-list request yields no data,
`get_smarthome_list` returns the empty list, and both `update_rooms`
and `update_heaters` then raise on `homes.get('0')` (a Python list has
no `.get`), completing abnormally with the room and heater registries
untouched — the error branch is reachable and the refresh is not a
graceful no-op. -/
theorem C10_empty_home_list (respRead respErr : ReqVal)
    (rooms : List (JVal × Room)) (heaters : List (JVal × Heater)) :
    get_smarthome_list .rnone = .ok .emptyList ∧
    update_rooms .rnone respRead rooms = (.exn, rooms) ∧
    update_heaters .rnone respRead respErr rooms heaters = (.exn, heaters) :=
  ⟨rfl, rfl, rfl⟩

/-! ### Concrete fixtures used by witnesses and counterexamples -/

/-- A session whose token is fresh relative to the sample clock 0. -/
def stFresh : LviState := ⟨.jstr "tok", .jstr "uid", .jstr "100"⟩

/-- A session whose stored expiry (5) is before the sample clock 10. -/
def stStale : LviState := ⟨.jstr "tok", .jstr "uid", .jstr "5"⟩

/-- A response body carrying the rejected status code `'5'`. -/
def rejectBody : JVal := .jobj [("code", .jobj [("code", .jstr "5")])]

/-- A transport that always answers with the rejection body. -/
def netReject : Nat → NetOutcome := fun _ => .response (some (some rejectBody))

/-- A transport that always times out. -/
def netTimeout : Nat → NetOutcome := fun _ => .timeout

/-- A transport that always raises a connection-level client error. -/
def netConnErr : Nat → NetOutcome := fun _ => .clientError

/-- An auth endpoint that always reports the explicit failure code `'3'`. -/
def authFailing : Nat → AuthOutcome :=
  fun _ => .response (some (.jobj [("code", .jobj [("code", .jstr "3")])]))

/-- A complete successful auth response body. -/
def authOkBody : JVal :=
  .jobj [("code", .jobj [("code", .jstr "1")]),
         ("data", .jobj [("token", .jstr "tok2"),
                         ("user_infos", .jobj [("user_id", .jstr "u2"),
                                               ("token_expire", .jstr "200")])])]

/-- An auth endpoint that always authenticates successfully. -/
def authOk : Nat → AuthOutcome := fun _ => .response (some authOkBody)

/-- An auth endpoint whose response body is not valid JSON. -/
def authMalformed : Nat → AuthOutcome := fun _ => .response none

/-! ### Claim C8: authentication failure leaves the session untouched -/

theorem connectGo_response_state (st : LviState) (idx : Nat)
    (b : Option JVal) (onT : ConnectOut) :
    (connectGo st idx (.response b) onT).res = .ok true ∨
      (connectGo st idx (.response b) onT).st = st := by
  cases b with
  | none => right; rfl
  | some data =>
    simp only [connectGo]
    repeat' split
    all_goals simp

theorem connect_state_unchanged (auth : Nat → AuthOutcome) (st : LviState) :
    ∀ retry idx, (connect auth st retry idx).res = .ok true ∨
      (connect auth st retry idx).st = st := by
  intro retry
  induction retry with
  | zero =>
    intro idx
    cases ho : auth idx with
    | transportErr => right; rw [connect, ho]; rfl
    | response b => rw [connect, ho]; exact connectGo_response_state st idx b _
  | succ r ih =>
    intro idx
    cases ho : auth idx with
    | transportErr => rw [connect, ho]; exact ih (idx + 1)
    | response b => rw [connect, ho]; exact connectGo_response_state st idx b _

/-- C8 (amended): every run of `connect` that does not end in full
success leaves the session state exactly as it was; the four listed
in-protocol failure causes (explicit code `'3'`, missing token, missing
user id, missing expiry) each return the failure value False; but a
MALFORMED response makes `connect` raise (propagate an exception)
rather than return the failure value. -/
theorem C8_connect_failure_no_mutation (auth : Nat → AuthOutcome)
    (st : LviState) (retry idx : Nat) :
    ((connect auth st retry idx).res ≠ .ok true →
      (connect auth st retry idx).st = st) ∧
    (∀ data, auth idx = .response (some data) →
      ∀ cc, codeChain data = .ok cc →
        (jeqStr cc "3" = true → (connect auth st retry idx).res = .ok false) ∧
        (jeqStr cc "3" = false →
          ((tokenChain data = .ok .jnull →
              (connect auth st retry idx).res = .ok false) ∧
           (∀ tk, tokenChain data = .ok tk → pyIsNone tk = false →
             ((userIdChain data = .ok .jnull →
                 (connect auth st retry idx).res = .ok false) ∧
              (∀ uid, userIdChain data = .ok uid → pyIsNone uid = false →
                (expireChain data = .ok .jnull →
                  (connect auth st retry idx).res = .ok false))))))) ∧
    (auth idx = .response none → (connect auth st retry idx).res = .exn) := by
  refine ⟨fun hne => ((connect_state_unchanged auth st retry idx).resolve_left hne),
    ?_, ?_⟩
  · intro data hresp cc hcode
    refine ⟨fun h3 => ?_, fun h3 => ⟨fun htk => ?_, ?_⟩⟩
    · rw [connect_eq, hresp]
      simp [connectGo, hcode, h3]
    · rw [connect_eq, hresp]
      simp [connectGo, hcode, h3, htk, pyIsNone]
    · intro tk htk hnn
      refine ⟨fun huid => ?_, ?_⟩
      · rw [connect_eq, hresp]
        simp [connectGo, hcode, h3, htk, hnn, huid, pyIsNone]
      · intro uid huid hunn hexp
        rw [connect_eq, hresp]
        simp [connectGo, hcode, h3, htk, hnn, huid, hunn, hexp, pyIsNone]
  · intro hresp
    rw [connect_eq, hresp]
    simp [connectGo]

/-- C8, counterexample: a malformed auth response (body that is not
valid JSON) makes `connect` raise — it does not RETURN the failure
value, contradicting the claim's "returns failure" for the malformed
case (state is still untouched). -/
theorem C8_counterexample :
    connect authMalformed ⟨.jnull, .jnull, .jnull⟩ 2 0 =
      ⟨.exn, ⟨.jnull, .jnull, .jnull⟩, 1⟩ ∧
    (PyResult.exn : PyResult Bool) ≠ .ok false := by
  decide

/-- C8, witness: the explicit auth-failure code `'3'` yields the
returned failure value with the session state unchanged. -/
theorem C8_witness :
    (connect authFailing stFresh 2 0).res = .ok false ∧
    (connect authFailing stFresh 2 0).st = stFresh :=
  ⟨(((C8_connect_failure_no_mutation authFailing stFresh 2 0).2.1 _ rfl _ rfl).1 rfl),
   (C8_connect_failure_no_mutation authFailing stFresh 2 0).1 (by decide)⟩

/-! ### Claim C1: a token-rejection body -/

/-- C1 (amended): a response body whose status code is neither `'1'`
nor `'8'` makes the executor log and return the failure value False
IMMEDIATELY: one network attempt, no session invalidation (state
unchanged), no re-authentication (zero `connect` calls), and no retry
of the original call, whatever the remaining budget. -/
theorem C1_token_rejection_immediate_failure
    (net : Nat → NetOutcome) (auth : Nat → AuthOutcome) (now : Nat)
    (st : LviState) (retry netIdx authIdx : Nat) (data cc : JVal) (texp : Nat)
    (htok : pyIsNone st.token = false)
    (hexp : parseExpire st.token_expire = some texp)
    (hfresh : ¬ texp ≤ now)
    (hnet : net netIdx = .response (some (some data)))
    (hcode : codeChain data = .ok cc)
    (h1 : jeqStr cc "1" = false)
    (h8 : jeqStr cc "8" = false) :
    request net auth now st retry netIdx authIdx =
      ⟨.rfalse, st, 1, 0, netIdx + 1, authIdx⟩ := by
  rw [request_eq, hnet]
  simp [requestGo, htok, hexp, hfresh, hcode, h1, h8]

/-- C1, counterexample: with a valid, unexpired token and a body
carrying the rejected code `'5'`, the executor returns False after one
attempt with ZERO re-authentication attempts — the claim requires
exactly one re-authentication and a retry of the call. -/
theorem C1_counterexample :
    request netReject authMalformed 0 stFresh 3 0 0 =
      ⟨.rfalse, stFresh, 1, 0, 1, 0⟩ ∧ (0 : Nat) ≠ 1 := by
  decide

/-- C1, witness for the amended theorem at the concrete rejection
scenario. -/
theorem C1_witness :
    request netReject authMalformed 0 stFresh 3 0 0 =
      ⟨.rfalse, stFresh, 1, 0, 1, 0⟩ :=
  C1_token_rejection_immediate_failure netReject authMalformed 0 stFresh 3 0 0
    rejectBody (.jstr "5") 100 rfl rfl (by decide) rfl rfl rfl rfl

/-! ### Claim C2: the locally-expired-token path -/

/-- C2: when the stored expiry is at or before the local clock, the
executor triggers `connect`; on failure it returns the failure signal
None.  But on success the source returns the recursive call WITHOUT
awaiting it (line 131 lacks the `await` that line 151 has): the retry
never executes (zero network attempts) and the caller receives a
coroutine object, not the retried call's response value. -/
theorem C2_expired_token_reauth_not_awaited
    (net : Nat → NetOutcome) (auth : Nat → AuthOutcome) (now : Nat)
    (st : LviState) (retry netIdx authIdx : Nat) (texp : Nat)
    (htok : pyIsNone st.token = false)
    (hexp : parseExpire st.token_expire = some texp)
    (hexpired : texp ≤ now) :
    ((connect auth st 2 authIdx).res = .ok false →
      request net auth now st retry netIdx authIdx =
        ⟨.rnone, (connect auth st 2 authIdx).st, 0, 1, netIdx,
         (connect auth st 2 authIdx).authIdx⟩) ∧
    ((connect auth st 2 authIdx).res = .ok true →
      request net auth now st retry netIdx authIdx =
        ⟨.rcoro ((retry : Int) - 1), (connect auth st 2 authIdx).st, 0, 1, netIdx,
         (connect auth st 2 authIdx).authIdx⟩) := by
  constructor <;> intro hc <;> rw [request_eq] <;>
    simp [requestGo, htok, hexp, hexpired, hc]

/-- C2, witness: with an expired stored token and an auth endpoint that
re-authenticates successfully, the executor returns the un-awaited
coroutine object and performs zero network attempts. -/
theorem C2_witness :
    request netReject authOk 10 stStale 3 0 0 =
      ⟨.rcoro 2, ⟨.jstr "tok2", .jstr "u2", .jstr "200"⟩, 0, 1, 0, 1⟩ :=
  (C2_expired_token_reauth_not_awaited netReject authOk 10 stStale 3 0 0 5
    rfl rfl (by decide)).2 (by decide)

/-! ### Claim C3: transport-error classification -/

/-- C3 (amended): only a TIMEOUT is retried with a decremented budget
(failing with None once the budget is spent); a connection-level
transport error (`aiohttp.ClientError`) returns the failure signal None
immediately, after a single attempt, whatever the remaining budget. -/
theorem C3_timeout_retries_conn_error_immediate
    (net : Nat → NetOutcome) (auth : Nat → AuthOutcome) (now : Nat)
    (st : LviState) (netIdx authIdx : Nat) (texp : Nat)
    (htok : pyIsNone st.token = false)
    (hexp : parseExpire st.token_expire = some texp)
    (hfresh : ¬ texp ≤ now) :
    (net netIdx = .clientError →
      ∀ retry, request net auth now st retry netIdx authIdx =
        ⟨.rnone, st, 1, 0, netIdx + 1, authIdx⟩) ∧
    (net netIdx = .timeout →
      request net auth now st 0 netIdx authIdx =
        ⟨.rnone, st, 1, 0, netIdx + 1, authIdx⟩ ∧
      ∀ r, request net auth now st (r + 1) netIdx authIdx =
        ⟨(request net auth now st r (netIdx + 1) authIdx).result,
         (request net auth now st r (netIdx + 1) authIdx).st,
         (request net auth now st r (netIdx + 1) authIdx).netAttempts + 1,
         (request net auth now st r (netIdx + 1) authIdx).connectCalls,
         (request net auth now st r (netIdx + 1) authIdx).netIdx,
         (request net auth now st r (netIdx + 1) authIdx).authIdx⟩) := by
  constructor
  · intro hnet retry
    rw [request_eq, hnet]
    simp [requestGo, htok, hexp, hfresh]
  · intro hnet
    constructor
    · rw [request_eq, hnet]
      simp [requestGo, htok, hexp, hfresh]
    · intro r
      rw [request_eq, hnet]
      simp [requestGo, htok, hexp, hfresh]

/-- C3, counterexample: a connection-level transport error with budget
3 reports failure after a single attempt — it is not retried and the
budget is not consumed, contradicting "failure only once the budget is
exhausted" (which would take 4 attempts here). -/
theorem C3_counterexample :
    request netConnErr authMalformed 0 stFresh 3 0 0 =
      ⟨.rnone, stFresh, 1, 0, 1, 0⟩ ∧ (1 : Nat) ≠ 4 := by
  decide

/-- C3, witness for the amended theorem: the connection-error leg at
budget 3 and the timeout leg at budget 0. -/
theorem C3_witness :
    request netConnErr authMalformed 0 stFresh 3 0 0 =
      ⟨.rnone, stFresh, 1, 0, 1, 0⟩ ∧
    request netTimeout authMalformed 0 stFresh 0 0 0 =
      ⟨.rnone, stFresh, 1, 0, 1, 0⟩ :=
  ⟨(C3_timeout_retries_conn_error_immediate netConnErr authMalformed 0 stFresh
      0 0 100 rfl rfl (by decide)).1 rfl 3,
   ((C3_timeout_retries_conn_error_immediate netTimeout authMalformed 0 stFresh
      0 0 100 rfl rfl (by decide)).2 rfl).1⟩

/-! ### Claim C4: attempts against an always-timing-out transport -/

/-- C4 (amended): with retry budget `n` and a transport that always
times out, the executor returns the failure signal None after exactly
`n + 1` network attempts (the initial attempt plus `n` retries), never
more, touching neither session state nor the auth endpoint. -/
theorem C4_always_timeout_attempts
    (net : Nat → NetOutcome) (auth : Nat → AuthOutcome) (now : Nat)
    (st : LviState) (texp : Nat)
    (htok : pyIsNone st.token = false)
    (hexp : parseExpire st.token_expire = some texp)
    (hfresh : ¬ texp ≤ now)
    (hto : ∀ i, net i = .timeout) :
    ∀ n netIdx authIdx, request net auth now st n netIdx authIdx =
      ⟨.rnone, st, n + 1, 0, netIdx + (n + 1), authIdx⟩ := by
  intro n
  induction n with
  | zero =>
    intro netIdx authIdx
    rw [request_eq, hto netIdx]
    simp [requestGo, htok, hexp, hfresh]
  | succ m ih =>
    intro netIdx authIdx
    rw [request_eq, hto netIdx]
    simp [requestGo, htok, hexp, hfresh, ih (netIdx + 1)]
    omega

/-- C4, counterexample: with budget 3 the always-timeout transport is
attempted 4 times, not 3 as the claim states. -/
theorem C4_counterexample :
    (request netTimeout authMalformed 0 stFresh 3 0 0).netAttempts = 4 ∧
    (4 : Nat) ≠ 3 := by
  decide

/-- C4, witness for the amended theorem at budget 2. -/
theorem C4_witness :
    request netTimeout authMalformed 0 stFresh 2 0 0 =
      ⟨.rnone, stFresh, 3, 0, 3, 0⟩ :=
  C4_always_timeout_attempts netTimeout authMalformed 0 stFresh 100
    rfl rfl (by decide) (fun _ => rfl) 2 0 0

end Pylvi
